import Mathlib

/-!
# Verification of the Twilio ↔ OpenAI realtime speech bridge

Shallow embedding of the per-call session bridge from
`speech-assistant-openai-realtime-api-node`.  The repository contains several
variants of the `/media-stream` connection handler; we embed the two that the
spec's claims refer to:

* **Variant A** (automatic mode with greeting handshake and audio pacer):
  the handler with `callReady` / `openAiSessionReady` / `greetingSent`
  flags, `pendingAudioChunks` initial-audio buffering and
  `INITIAL_CHUNKS_BEFORE_FLUSH = 6`.
* **Variant B** (manual mode): the handler with
  `create_response: false`, `tryCreateResponse`, `lastCommittedItemId`,
  `pendingResponseForItemId`, and the barge-in `handleSpeechStartedEvent`
  that truncates the current assistant item and clears Twilio playback.

Each connection-local `let` variable becomes a field of a session record;
each event handler becomes a pure step function returning the updated
session together with the list of messages sent on either socket.  The
JavaScript truthiness tests (`!streamSid`, `!response.delta`,
`!responseStartTimestampTwilio`, `!lastCommittedItemId`) are modelled by
explicit falsiness predicates on `Option` values (null/undefined and the
falsy values `""` and `0`).  `setTimeout` callbacks that re-read the current
state (the greeting delay and the 250 ms commit-timeout fallback) are
modelled as explicit events/immediate sends, as noted at each definition.
-/

set_option maxRecDepth 8192

namespace SpeechBridge

/-- Messages sent by a connection handler, on either the Twilio media socket
or the OpenAI realtime socket. -/
inductive Out where
  /-- Twilio `media` event: `{event:"media", streamSid, media:{payload}}`. -/
  | mediaOut (streamSid : Option String) (payload : String)
  /-- Twilio `mark` event (playback-acknowledgment request). -/
  | markOut (streamSid : Option String)
  /-- Twilio `clear` event (clear playback buffer). -/
  | clearOut (streamSid : Option String)
  /-- OpenAI `conversation.item.truncate` command. -/
  | truncateOut (itemId : String) (contentIndex : Nat) (audioEndMs : Int)
  /-- OpenAI `response.create` carrying the greeting instructions. -/
  | greetingCreate
  /-- OpenAI `response.create` issued by `tryCreateResponse` (manual mode). -/
  | responseCreateOut
  /-- OpenAI `input_audio_buffer.append` command. -/
  | appendOut (audio : String)
  /-- OpenAI `session.update` configuration command. -/
  | sessionUpdateOut
  /-- Invocation of `openAiWs.close()`. -/
  | closeOpenAiOut
deriving Repr, DecidableEq

/-- JavaScript falsiness of a nullable string: `null`/`undefined` and the
empty string are falsy (`if (!x)` fires). -/
def strFalsy : Option String → Bool
  | none => true
  | some s => s == ""

/-- JavaScript falsiness of a nullable number: `null`/`undefined` and `0`
are falsy (`if (!x)` fires). -/
def numFalsy : Option Int → Bool
  | none => true
  | some n => n == 0

/-! ## Variant B: manual response mode (`create_response: false`) -/

/-- Connection-local state of the manual-mode `/media-stream` handler. -/
structure SessionB where
  /-- `streamSid`, set by the Twilio `start` event. -/
  streamSid : Option String
  /-- `latestMediaTimestamp`, the timestamp of the last inbound media frame. -/
  latestMediaTimestamp : Int
  /-- `lastAssistantItem`, the current assistant item id. -/
  lastAssistantItem : Option String
  /-- `markQueue`, pending playback-acknowledgment names. -/
  markQueue : List String
  /-- `responseStartTimestampTwilio`, the response anchor. -/
  responseStartTimestampTwilio : Option Int
  /-- `aiResponseInProgress` guard flag. -/
  aiResponseInProgress : Bool
  /-- `lastCommittedItemId`, last committed input item. -/
  lastCommittedItemId : Option String
  /-- `pendingResponseForItemId`, commit awaiting its timeout fallback. -/
  pendingResponseForItemId : Option String
  /-- Whether `openAiWs.readyState === WebSocket.OPEN`. -/
  openAiWsOpen : Bool
deriving Repr, DecidableEq

/-- Initial connection-local state of the manual-mode handler (all
variables at their declared initial values, OpenAI socket open). -/
def initB : SessionB :=
  { streamSid := none
    latestMediaTimestamp := 0
    lastAssistantItem := none
    markQueue := []
    responseStartTimestampTwilio := none
    aiResponseInProgress := false
    lastCommittedItemId := none
    pendingResponseForItemId := none
    openAiWsOpen := true }

/-- `handleSpeechStartedEvent` of the manual-mode handler: on caller
barge-in, if acknowledgments are outstanding and a response anchor exists,
truncate the current assistant item at `latestMediaTimestamp -
responseStartTimestampTwilio`, clear Twilio playback, and reset the
barge-in state; otherwise do nothing. -/
def handleSpeechStartedEventB (s : SessionB) : SessionB × List Out :=
  if s.markQueue.length > 0 ∧ s.responseStartTimestampTwilio.isSome then
    let elapsedTime := s.latestMediaTimestamp - s.responseStartTimestampTwilio.getD 0
    let truncOuts :=
      if strFalsy s.lastAssistantItem then []
      else [Out.truncateOut (s.lastAssistantItem.getD "") 0 elapsedTime]
    ({ s with
        markQueue := []
        lastAssistantItem := none
        responseStartTimestampTwilio := none
        aiResponseInProgress := false },
      truncOuts ++ [Out.clearOut s.streamSid])
  else
    (s, [])

/-- `sendMark` of the manual-mode handler: if `streamSid` is set, send a
Twilio `mark` event and push `"responsePart"` onto `markQueue`. -/
def sendMarkB (s : SessionB) : SessionB × List Out :=
  if strFalsy s.streamSid then (s, [])
  else ({ s with markQueue := s.markQueue ++ ["responsePart"] },
        [Out.markOut s.streamSid])

/-- `tryCreateResponse`: send `response.create` unless a response is already
in progress or no audio has been committed yet. -/
def tryCreateResponseB (s : SessionB) : SessionB × List Out :=
  if s.aiResponseInProgress then (s, [])
  else if strFalsy s.lastCommittedItemId then (s, [])
  else ({ s with aiResponseInProgress := true }, [Out.responseCreateOut])

/-- Events delivered to the manual-mode handler: OpenAI socket messages,
Twilio socket messages, and the firing of the 250 ms commit-timeout
fallback scheduled by the `input_audio_buffer.committed` handler (the
timeout callback reads the then-current variables, so it is faithfully
modelled as a separate event acting on the current state). -/
inductive EventB where
  | oaResponseCreated
  | oaResponseDone (failed : Bool)
  | oaAudioDelta (audio : Option String) (itemId : Option String)
  | oaSpeechStarted
  | oaCommitted (itemId : Option String)
  | commitTimerFire
  | oaTranscriptionCompleted
  | oaErrorEvt
  | twStart (sid : String)
  | twMedia (timestamp : Int) (payload : String)
  | twMark
  | twStop
deriving Repr, DecidableEq

/-- One step of the manual-mode handler. -/
def stepB (s : SessionB) : EventB → SessionB × List Out
  | .oaResponseCreated =>
      ({ s with aiResponseInProgress := true }, [])
  | .oaResponseDone _failed =>
      -- failure status is only logged; state handling is identical
      ({ s with aiResponseInProgress := false }, [])
  | .oaAudioDelta audio itemId =>
      -- `if (response.type === "response.audio.delta" && response.audio)`
      if strFalsy audio then (s, [])
      else
        let out1 := Out.mediaOut s.streamSid (audio.getD "")
        let s1 :=
          if numFalsy s.responseStartTimestampTwilio then
            { s with responseStartTimestampTwilio := some s.latestMediaTimestamp }
          else s
        let s2 :=
          if strFalsy itemId then s1 else { s1 with lastAssistantItem := itemId }
        let (s3, o3) := sendMarkB s2
        (s3, out1 :: o3)
  | .oaSpeechStarted =>
      handleSpeechStartedEventB s
  | .oaCommitted itemId =>
      -- also schedules the 250 ms fallback, modelled by `commitTimerFire`
      ({ s with lastCommittedItemId := itemId, pendingResponseForItemId := itemId }, [])
  | .commitTimerFire =>
      if s.pendingResponseForItemId = s.lastCommittedItemId then
        let (s1, o1) := tryCreateResponseB s
        ({ s1 with pendingResponseForItemId := none }, o1)
      else (s, [])
  | .oaTranscriptionCompleted =>
      tryCreateResponseB { s with pendingResponseForItemId := none }
  | .oaErrorEvt =>
      (s, [])
  | .twStart sid =>
      ({ s with
          streamSid := some sid
          responseStartTimestampTwilio := none
          latestMediaTimestamp := 0
          aiResponseInProgress := false
          lastCommittedItemId := none
          pendingResponseForItemId := none }, [])
  | .twMedia ts payload =>
      let s1 := { s with latestMediaTimestamp := ts }
      if s1.openAiWsOpen then (s1, [Out.appendOut payload]) else (s1, [])
  | .twMark =>
      match s.markQueue with
      | [] => (s, [])
      | _ :: rest => ({ s with markQueue := rest }, [])
  | .twStop =>
      (s, [])

/-- Run the manual-mode handler over a list of events, collecting outputs. -/
def runB (s : SessionB) : List EventB → SessionB × List Out
  | [] => (s, [])
  | e :: rest =>
      ((runB (stepB s e).1 rest).1, (stepB s e).2 ++ (runB (stepB s e).1 rest).2)

/-- Number of `response.create` commands in an output list. -/
def countCreates : List Out → Nat
  | [] => 0
  | Out.responseCreateOut :: rest => countCreates rest + 1
  | _ :: rest => countCreates rest

/-! ## Variant A: automatic mode with greeting handshake and audio pacer -/

/-- `INITIAL_CHUNKS_BEFORE_FLUSH`: number of audio chunks buffered before
the first flush of a response. -/
def INITIAL_CHUNKS_BEFORE_FLUSH : Nat := 6

/-- Connection-local state of the automatic-mode `/media-stream` handler
(the variant with the greeting handshake and the initial-audio pacer). -/
structure SessionA where
  /-- `streamSid`, set by the Twilio `start` event. -/
  streamSid : Option String
  /-- `latestMediaTimestamp`. -/
  latestMediaTimestamp : Int
  /-- `lastAssistantItem`. -/
  lastAssistantItem : Option String
  /-- `markQueue`. -/
  markQueue : List String
  /-- `responseStartTimestampTwilio`, the response anchor. -/
  responseStartTimestampTwilio : Option Int
  /-- `aiResponseInProgress`. -/
  aiResponseInProgress : Bool
  /-- `pendingAudioChunks`, the pacer's initial-audio buffer. -/
  pendingAudioChunks : List String
  /-- `hasFlushedInitialAudio`. -/
  hasFlushedInitialAudio : Bool
  /-- `callReady`: Twilio `start` received. -/
  callReady : Bool
  /-- `openAiSessionReady`: OpenAI `session.updated` received. -/
  openAiSessionReady : Bool
  /-- `greetingSent`: the initial `response.create` has been issued. -/
  greetingSent : Bool
  /-- Whether `openAiWs.readyState === WebSocket.OPEN`. -/
  openAiWsOpen : Bool
  /-- Whether the Twilio media connection is still open. -/
  connOpen : Bool
deriving Repr, DecidableEq

/-- Initial connection-local state of the automatic-mode handler. -/
def initA : SessionA :=
  { streamSid := none
    latestMediaTimestamp := 0
    lastAssistantItem := none
    markQueue := []
    responseStartTimestampTwilio := none
    aiResponseInProgress := false
    pendingAudioChunks := []
    hasFlushedInitialAudio := false
    callReady := false
    openAiSessionReady := false
    greetingSent := false
    openAiWsOpen := true
    connOpen := true }

/-- `maybeSendGreeting`: issue the greeting `response.create` exactly once,
only when the Twilio stream has started, the OpenAI session is configured,
and the socket is open.  The 500 ms `setTimeout` around the actual send
(whose body re-checks that the socket is open) is modelled as an immediate
send, the re-check folded into the initial guard, since no other event is
modelled inside the delay. -/
def maybeSendGreetingA (s : SessionA) : SessionA × List Out :=
  if s.greetingSent ∨ ¬s.callReady ∨ ¬s.openAiSessionReady ∨ ¬s.openAiWsOpen then
    (s, [])
  else
    ({ s with greetingSent := true }, [Out.greetingCreate])

/-- `sendMark` of the automatic-mode handler. -/
def sendMarkA (s : SessionA) : SessionA × List Out :=
  if strFalsy s.streamSid then (s, [])
  else ({ s with markQueue := s.markQueue ++ ["responsePart"] },
        [Out.markOut s.streamSid])

/-- The `for (const payload of pendingAudioChunks)` loop body of
`flushPendingAudio`: send each payload as a Twilio `media` event followed
by `sendMark` (whose `streamSid` guard always passes here, since the
caller has already checked it). -/
def flushChunksA (sid : Option String) (s : SessionA) : List String → SessionA × List Out
  | [] => (s, [])
  | p :: rest =>
      let s1 := { s with markQueue := s.markQueue ++ ["responsePart"] }
      let (s2, o2) := flushChunksA sid s1 rest
      (s2, Out.mediaOut sid p :: Out.markOut sid :: o2)

/-- `flushPendingAudio`: if the stream id is set and the buffer is
non-empty, send all buffered chunks (each followed by a mark), then clear
the buffer and set `hasFlushedInitialAudio`. -/
def flushPendingAudioA (s : SessionA) : SessionA × List Out :=
  if strFalsy s.streamSid ∨ s.pendingAudioChunks = [] then (s, [])
  else
    let (s1, o1) := flushChunksA s.streamSid s s.pendingAudioChunks
    ({ s1 with pendingAudioChunks := [], hasFlushedInitialAudio := true }, o1)

/-- Events delivered to the automatic-mode handler: OpenAI socket
messages, Twilio socket messages, and the two socket close callbacks. -/
inductive EventA where
  | oaSessionUpdated
  | oaResponseCreated
  | oaResponseDone (failed : Bool)
  | oaAudioDelta (delta : Option String) (itemId : Option String)
  | oaSpeechStarted
  | oaCommitted (itemId : Option String)
  | oaTranscriptionCompleted
  | oaErrorEvt
  | twStart (sid : String)
  | twMedia (timestamp : Int) (payload : String)
  | twMark
  | twStop
  | connClose
  | oaClose
deriving Repr, DecidableEq

/-- One step of the automatic-mode handler.  The base64 decode/re-encode
of the audio delta (`Buffer.from(delta, "base64").toString("base64")`) is
the identity on well-formed payloads and is modelled as such. -/
def stepA (s : SessionA) : EventA → SessionA × List Out
  | .oaSessionUpdated =>
      maybeSendGreetingA { s with openAiSessionReady := true }
  | .oaResponseCreated =>
      ({ s with
          aiResponseInProgress := true
          pendingAudioChunks := []
          hasFlushedInitialAudio := false }, [])
  | .oaResponseDone _failed =>
      -- failure status is only logged; state handling is identical
      let (s1, o1) := flushPendingAudioA s
      ({ s1 with aiResponseInProgress := false }, o1)
  | .oaAudioDelta delta itemId =>
      if strFalsy delta then (s, [])
      else if strFalsy s.streamSid then (s, [])
      else
        let audioPayload := delta.getD ""
        let (s1, o1) :=
          if ¬s.hasFlushedInitialAudio then
            let sb := { s with pendingAudioChunks := s.pendingAudioChunks ++ [audioPayload] }
            if sb.pendingAudioChunks.length ≥ INITIAL_CHUNKS_BEFORE_FLUSH then
              flushPendingAudioA sb
            else (sb, [])
          else
            let (sm, om) := sendMarkA s
            (sm, Out.mediaOut s.streamSid audioPayload :: om)
        let s2 :=
          if numFalsy s1.responseStartTimestampTwilio then
            { s1 with responseStartTimestampTwilio := some s1.latestMediaTimestamp }
          else s1
        let s3 :=
          if strFalsy itemId then s2 else { s2 with lastAssistantItem := itemId }
        (s3, o1)
  | .oaSpeechStarted =>
      -- this variant's `handleSpeechStartedEvent` only logs
      (s, [])
  | .oaCommitted _ =>
      (s, [])
  | .oaTranscriptionCompleted =>
      (s, [])
  | .oaErrorEvt =>
      (s, [])
  | .twStart sid =>
      maybeSendGreetingA
        { s with
            streamSid := some sid
            responseStartTimestampTwilio := none
            latestMediaTimestamp := 0
            aiResponseInProgress := false
            markQueue := []
            lastAssistantItem := none
            pendingAudioChunks := []
            hasFlushedInitialAudio := false
            callReady := true
            greetingSent := false }
  | .twMedia ts payload =>
      let s1 := { s with latestMediaTimestamp := ts }
      if s1.openAiWsOpen then (s1, [Out.appendOut payload]) else (s1, [])
  | .twMark =>
      match s.markQueue with
      | [] => (s, [])
      | _ :: rest => ({ s with markQueue := rest }, [])
  | .twStop =>
      (s, [])
  | .connClose =>
      -- `connection.on("close")`: close the OpenAI socket if still open,
      -- then reset the handshake flags
      let (s1, o1) :=
        if s.openAiWsOpen then
          ({ s with openAiWsOpen := false }, [Out.closeOpenAiOut])
        else (s, [])
      ({ s1 with
          connOpen := false
          callReady := false
          openAiSessionReady := false
          greetingSent := false
          aiResponseInProgress := false }, o1)
  | .oaClose =>
      -- `openAiWs.on("close")`: only logs and clears the in-progress flag;
      -- the Twilio connection is not touched
      ({ s with openAiWsOpen := false, aiResponseInProgress := false }, [])

/-- Run the automatic-mode handler over a list of events. -/
def runA (s : SessionA) : List EventA → SessionA × List Out
  | [] => (s, [])
  | e :: rest =>
      ((runA (stepA s e).1 rest).1, (stepA s e).2 ++ (runA (stepA s e).1 rest).2)

/-- Number of greeting `response.create` commands in an output list. -/
def countGreetings : List Out → Nat
  | [] => 0
  | Out.greetingCreate :: rest => countGreetings rest + 1
  | _ :: rest => countGreetings rest

/-- Payloads of the Twilio `media` events in an output list, in order. -/
def mediaPayloads : List Out → List String
  | [] => []
  | Out.mediaOut _ p :: rest => p :: mediaPayloads rest
  | _ :: rest => mediaPayloads rest

/-- The output of flushing a chunk list: each payload as a `media` event
immediately followed by its `mark` event. -/
def interleaveMarks (sid : Option String) : List String → List Out
  | [] => []
  | p :: rest => Out.mediaOut sid p :: Out.markOut sid :: interleaveMarks sid rest

/-- Manual-mode events that may call `tryCreateResponse` or update the
commit bookkeeping: `input_audio_buffer.committed`, the commit-timeout
firing, and `input_audio_transcription.completed`. -/
def isManualTrigger : EventB → Bool
  | .oaCommitted _ => true
  | .commitTimerFire => true
  | .oaTranscriptionCompleted => true
  | _ => false

/-- Whether an event is an `input_audio_buffer.committed` message. -/
def isCommitEvent : EventB → Bool
  | .oaCommitted _ => true
  | _ => false

/-- A sample mid-response state of the automatic-mode handler: stream
started, an assistant item and anchor recorded, two chunks buffered. -/
def sampleRespondingA : SessionA :=
  { initA with
      streamSid := some "S"
      lastAssistantItem := some "X"
      responseStartTimestampTwilio := some 4200
      pendingAudioChunks := ["p1", "p2"] }

/-! ## Theorems -/

/-- C1: if a speech-started signal is processed while the acknowledgment
queue is non-empty, the anchor is 4200, the media clock is 5000, and the
active assistant item id is `"X"`, the handler sends a truncate command for
item `"X"` at content index 0 with cut point 800 followed by a clear
command for the stream, and afterwards the queue is empty and the anchor
and item id are cleared. -/
theorem C1_interruption_effect (sid : Option String) (q : List String) (hq : q ≠ [])
    (inProg wsOpen : Bool) (lci pri : Option String) :
    handleSpeechStartedEventB
      { streamSid := sid, latestMediaTimestamp := 5000, lastAssistantItem := some "X",
        markQueue := q, responseStartTimestampTwilio := some 4200,
        aiResponseInProgress := inProg, lastCommittedItemId := lci,
        pendingResponseForItemId := pri, openAiWsOpen := wsOpen } =
      ({ streamSid := sid, latestMediaTimestamp := 5000, lastAssistantItem := none,
         markQueue := [], responseStartTimestampTwilio := none,
         aiResponseInProgress := false, lastCommittedItemId := lci,
         pendingResponseForItemId := pri, openAiWsOpen := wsOpen },
       [Out.truncateOut "X" 0 800, Out.clearOut sid]) := by
  have hq' : 0 < q.length := List.length_pos.mpr hq
  simp [handleSpeechStartedEventB, strFalsy, hq']

/-- Witness for C1 at a concrete session state. -/
theorem C1_interruption_effect_witness :
    handleSpeechStartedEventB
      { streamSid := some "S", latestMediaTimestamp := 5000, lastAssistantItem := some "X",
        markQueue := ["responsePart"], responseStartTimestampTwilio := some 4200,
        aiResponseInProgress := true, lastCommittedItemId := none,
        pendingResponseForItemId := none, openAiWsOpen := true } =
      ({ streamSid := some "S", latestMediaTimestamp := 5000, lastAssistantItem := none,
         markQueue := [], responseStartTimestampTwilio := none,
         aiResponseInProgress := false, lastCommittedItemId := none,
         pendingResponseForItemId := none, openAiWsOpen := true },
       [Out.truncateOut "X" 0 800, Out.clearOut (some "S")]) :=
  C1_interruption_effect (some "S") ["responsePart"] (by simp) true true none none

/-- C5: if a speech-started signal arrives with the acknowledgment queue
empty or with no response anchor recorded, no command is sent and the
session state is unchanged. -/
theorem C5_interruption_noop (s : SessionB)
    (h : s.markQueue = [] ∨ s.responseStartTimestampTwilio = none) :
    handleSpeechStartedEventB s = (s, []) := by
  rcases h with h | h <;> simp [handleSpeechStartedEventB, h]

/-- Unfolding of the `flushPendingAudio` loop: it appends one
`"responsePart"` per chunk to `markQueue` and emits each chunk as a media
event followed by a mark event. -/
theorem flushChunksA_spec (sid : Option String) (s : SessionA) (l : List String) :
    flushChunksA sid s l =
      ({ s with markQueue := s.markQueue ++ l.map (fun _ => "responsePart") },
       interleaveMarks sid l) := by
  induction l generalizing s with
  | nil => simp [flushChunksA, interleaveMarks]
  | cons p rest ih => simp [flushChunksA, interleaveMarks, ih]

/-- `flushPendingAudio` on a non-empty buffer with the stream id set:
sends every buffered chunk, clears the buffer and records the flush. -/
theorem flushPendingAudioA_spec (s : SessionA) (h : strFalsy s.streamSid = false)
    (hne : s.pendingAudioChunks ≠ []) :
    flushPendingAudioA s =
      ({ s with
          markQueue := s.markQueue ++ s.pendingAudioChunks.map (fun _ => "responsePart")
          pendingAudioChunks := []
          hasFlushedInitialAudio := true },
       interleaveMarks s.streamSid s.pendingAudioChunks) := by
  simp [flushPendingAudioA, h, hne, flushChunksA_spec]

/-- The media payloads of a flush are exactly the flushed chunks. -/
theorem mediaPayloads_interleaveMarks (sid : Option String) (l : List String) :
    mediaPayloads (interleaveMarks sid l) = l := by
  induction l with
  | nil => rfl
  | cons p rest ih => simp [interleaveMarks, mediaPayloads, ih]

/-- Witness for C5 at a concrete session state. -/
theorem C5_interruption_noop_witness :
    handleSpeechStartedEventB
      { initB with
          latestMediaTimestamp := 5000
          lastAssistantItem := some "X"
          responseStartTimestampTwilio := some 4200 } =
      ({ initB with
          latestMediaTimestamp := 5000
          lastAssistantItem := some "X"
          responseStartTimestampTwilio := some 4200 }, []) :=
  C5_interruption_noop _ (Or.inl rfl)

/-- C6 counterexample: in a reachable trace of the manual-mode handler (a
media frame with a smaller timestamp arriving after the response anchor was
recorded), the truncate command carries a negative cut point: the code
computes `latestMediaTimestamp - responseStartTimestampTwilio` with no
clamping to zero. -/
theorem C6_counterexample :
    (runB initB
      [.twStart "S", .twMedia 4200 "a", .oaResponseCreated,
       .oaAudioDelta (some "d") (some "X"), .twMedia 100 "b",
       .oaSpeechStarted]).2 =
      [Out.appendOut "a", Out.mediaOut (some "S") "d", Out.markOut (some "S"),
       Out.appendOut "b", Out.truncateOut "X" 0 (-4100), Out.clearOut (some "S")]
    ∧ (-4100 : Int) < 0 := by
  constructor
  · rfl
  · decide

/-- C6 as amended: whenever an interruption is processed with an active
assistant item, the cut point sent equals `mediaClock - responseAnchor`
with no clamping; it is non-negative exactly when the media clock has not
fallen below the anchor. -/
theorem C6_cutpoint_unclamped (s : SessionB) (a : Int) (item : String)
    (hq : s.markQueue ≠ []) (ha : s.responseStartTimestampTwilio = some a)
    (hi : s.lastAssistantItem = some item) (hne : item ≠ "") :
    (handleSpeechStartedEventB s).2 =
      [Out.truncateOut item 0 (s.latestMediaTimestamp - a), Out.clearOut s.streamSid]
    ∧ (a ≤ s.latestMediaTimestamp → 0 ≤ s.latestMediaTimestamp - a) := by
  have hq' : 0 < s.markQueue.length := List.length_pos.mpr hq
  constructor
  · simp [handleSpeechStartedEventB, ha, hi, strFalsy, hq', hne]
  · intro hle
    omega

/-- Witness for the amended C6 at a concrete session state. -/
theorem C6_cutpoint_unclamped_witness :
    (handleSpeechStartedEventB
      { streamSid := some "S", latestMediaTimestamp := 5000,
        lastAssistantItem := some "X", markQueue := ["responsePart"],
        responseStartTimestampTwilio := some 4200, aiResponseInProgress := true,
        lastCommittedItemId := none, pendingResponseForItemId := none,
        openAiWsOpen := true }).2 =
      [Out.truncateOut "X" 0 (5000 - 4200), Out.clearOut (some "S")]
    ∧ ((4200 : Int) ≤ 5000 → (0 : Int) ≤ 5000 - 4200) :=
  C6_cutpoint_unclamped _ 4200 "X" (by simp) rfl rfl (by simp)

/-- C7 counterexample: processing `response.done` leaves the active
assistant item id and the response anchor in place; they are not cleared. -/
theorem C7_counterexample :
    (stepA sampleRespondingA (.oaResponseDone false)).1.lastAssistantItem = some "X"
    ∧ (stepA sampleRespondingA (.oaResponseDone false)).1.responseStartTimestampTwilio
        = some 4200 :=
  ⟨rfl, rfl⟩

/-- C7 as amended: on every `response.done` (success or failure alike) the
buffered audio is flushed — once the stream id is set, every buffered chunk
is delivered and the buffer is left empty — and the response-in-progress
flag is cleared; but the active assistant item id and the response anchor
are left unchanged, not cleared. -/
theorem C7_done_flushes_but_keeps_item (s : SessionA) (failed : Bool)
    (h : strFalsy s.streamSid = false) :
    (stepA s (.oaResponseDone failed)).1.aiResponseInProgress = false
    ∧ (stepA s (.oaResponseDone failed)).1.pendingAudioChunks = []
    ∧ mediaPayloads (stepA s (.oaResponseDone failed)).2 = s.pendingAudioChunks
    ∧ (stepA s (.oaResponseDone failed)).1.lastAssistantItem = s.lastAssistantItem
    ∧ (stepA s (.oaResponseDone failed)).1.responseStartTimestampTwilio
        = s.responseStartTimestampTwilio := by
  by_cases hne : s.pendingAudioChunks = []
  · simp [stepA, flushPendingAudioA, hne, mediaPayloads]
  · simp [stepA, flushPendingAudioA_spec s h hne, mediaPayloads_interleaveMarks]

/-- Witness for the amended C7 at a concrete session state. -/
theorem C7_done_flushes_but_keeps_item_witness :
    (stepA sampleRespondingA (.oaResponseDone false)).1.aiResponseInProgress = false
    ∧ (stepA sampleRespondingA (.oaResponseDone false)).1.pendingAudioChunks = []
    ∧ mediaPayloads (stepA sampleRespondingA (.oaResponseDone false)).2
        = sampleRespondingA.pendingAudioChunks
    ∧ (stepA sampleRespondingA (.oaResponseDone false)).1.lastAssistantItem
        = sampleRespondingA.lastAssistantItem
    ∧ (stepA sampleRespondingA (.oaResponseDone false)).1.responseStartTimestampTwilio
        = sampleRespondingA.responseStartTimestampTwilio :=
  C7_done_flushes_but_keeps_item sampleRespondingA false (by simp [sampleRespondingA, strFalsy, initA])

/-- C8 counterexample: with both sides open, processing the Speech Service
socket close leaves the Twilio media connection open and sends nothing —
teardown is not propagated in that direction. -/
theorem C8_counterexample :
    (stepA initA EventA.oaClose).1.connOpen = true
    ∧ (stepA initA EventA.oaClose).2 = [] :=
  ⟨rfl, rfl⟩

/-- C8 as amended: closing the Twilio media connection closes the OpenAI
socket in the same teardown step when it is still open; closing the OpenAI
socket does not close the media connection — it only clears the
response-in-progress flag and sends nothing. -/
theorem C8_teardown_one_directional (s : SessionA) (h : s.openAiWsOpen = true) :
    ((stepA s EventA.connClose).1.openAiWsOpen = false
      ∧ (stepA s EventA.connClose).2 = [Out.closeOpenAiOut])
    ∧ ((stepA s EventA.oaClose).1.connOpen = s.connOpen
      ∧ (stepA s EventA.oaClose).2 = []
      ∧ (stepA s EventA.oaClose).1.aiResponseInProgress = false) := by
  simp [stepA, h]

/-- Witness for the amended C8 at the initial session state. -/
theorem C8_teardown_one_directional_witness :
    (((stepA initA EventA.connClose).1.openAiWsOpen = false
      ∧ (stepA initA EventA.connClose).2 = [Out.closeOpenAiOut])
    ∧ ((stepA initA EventA.oaClose).1.connOpen = initA.connOpen
      ∧ (stepA initA EventA.oaClose).2 = []
      ∧ (stepA initA EventA.oaClose).1.aiResponseInProgress = false)) :=
  C8_teardown_one_directional initA rfl

/-- C9: an audio delta arriving with no delta payload, or before the
Twilio stream id is set, is discarded without any output or state change. -/
theorem C9_delta_dropped (s : SessionA) (d i : Option String)
    (h : strFalsy d = true ∨ strFalsy s.streamSid = true) :
    stepA s (.oaAudioDelta d i) = (s, []) := by
  by_cases hd : strFalsy d = true
  · simp [stepA, hd]
  · rcases h with h | h
    · exact absurd h hd
    · simp [stepA, hd, h]

/-- Witness for C9: a well-formed delta arriving before `start` is
dropped. -/
theorem C9_delta_dropped_witness :
    stepA initA (.oaAudioDelta (some "x") (some "item")) = (initA, []) :=
  C9_delta_dropped initA (some "x") (some "item") (Or.inr rfl)

/-- `countGreetings` distributes over list append. -/
theorem countGreetings_append (a b : List Out) :
    countGreetings (a ++ b) = countGreetings a + countGreetings b := by
  induction a with
  | nil => simp [countGreetings]
  | cons x rest ih => cases x <;> simp [countGreetings, ih] <;> omega

/-- Running the automatic-mode handler over an appended event list
composes the two runs. -/
theorem runA_append (s : SessionA) (l1 l2 : List EventA) :
    runA s (l1 ++ l2)
      = ((runA (runA s l1).1 l2).1, (runA s l1).2 ++ (runA (runA s l1).1 l2).2) := by
  induction l1 generalizing s with
  | nil => simp [runA]
  | cons e rest ih => simp [runA, ih]

/-- A flush emits no greeting command. -/
theorem countGreetings_interleaveMarks (sid : Option String) (l : List String) :
    countGreetings (interleaveMarks sid l) = 0 := by
  induction l with
  | nil => rfl
  | cons p rest ih => simp [interleaveMarks, countGreetings, ih]

/-- `flushPendingAudio` emits no greeting command. -/
theorem countGreetings_flush (s : SessionA) :
    countGreetings (flushPendingAudioA s).2 = 0 := by
  by_cases h1 : strFalsy s.streamSid = true
  · simp [flushPendingAudioA, h1, countGreetings]
  · by_cases h2 : s.pendingAudioChunks = []
    · simp [flushPendingAudioA, h2, countGreetings]
    · rw [flushPendingAudioA_spec s (by simpa using h1) h2]
      exact countGreetings_interleaveMarks _ _

/-- `flushPendingAudio` does not change `greetingSent`. -/
theorem flush_greetingSent (s : SessionA) :
    (flushPendingAudioA s).1.greetingSent = s.greetingSent := by
  by_cases h1 : strFalsy s.streamSid = true
  · simp [flushPendingAudioA, h1]
  · by_cases h2 : s.pendingAudioChunks = []
    · simp [flushPendingAudioA, h2]
    · rw [flushPendingAudioA_spec s (by simpa using h1) h2]

/-- `flushPendingAudio` does not change `callReady`. -/
theorem flush_callReady (s : SessionA) :
    (flushPendingAudioA s).1.callReady = s.callReady := by
  by_cases h1 : strFalsy s.streamSid = true
  · simp [flushPendingAudioA, h1]
  · by_cases h2 : s.pendingAudioChunks = []
    · simp [flushPendingAudioA, h2]
    · rw [flushPendingAudioA_spec s (by simpa using h1) h2]

/-- An audio-delta step emits no greeting and does not change
`greetingSent` or `callReady`. -/
theorem stepA_delta_preserves (s : SessionA) (d i : Option String) :
    countGreetings (stepA s (.oaAudioDelta d i)).2 = 0
    ∧ (stepA s (.oaAudioDelta d i)).1.greetingSent = s.greetingSent
    ∧ (stepA s (.oaAudioDelta d i)).1.callReady = s.callReady := by
  by_cases hd : strFalsy d = true
  · simp [stepA, hd, countGreetings]
  · by_cases hsid : strFalsy s.streamSid = true
    · simp [stepA, hd, hsid, countGreetings]
    · by_cases hf : s.hasFlushedInitialAudio = true
      · simp [stepA, hd, hsid, hf, sendMarkA, countGreetings, apply_ite]
      · by_cases hlen : INITIAL_CHUNKS_BEFORE_FLUSH ≤ s.pendingAudioChunks.length + 1
        · simp [stepA, hd, hsid, hf, hlen, ge_iff_le, apply_ite,
            countGreetings_flush, flush_greetingSent, flush_callReady]
        · simp [stepA, hd, hsid, hf, hlen, ge_iff_le, apply_ite, countGreetings]

/-- Any single event other than a Twilio `start` emits no greeting and
preserves the property that the greeting was already issued or the call is
not ready. -/
theorem stepA_no_greeting (s : SessionA) (e : EventA)
    (hs : s.greetingSent = true ∨ s.callReady = false)
    (he : ∀ sid, e ≠ EventA.twStart sid) :
    countGreetings (stepA s e).2 = 0
    ∧ ((stepA s e).1.greetingSent = true ∨ (stepA s e).1.callReady = false) := by
  cases e with
  | twStart sid => exact absurd rfl (he sid)
  | oaSessionUpdated =>
      rcases hs with h | h <;> simp [stepA, maybeSendGreetingA, h, countGreetings]
  | oaResponseCreated =>
      rcases hs with h | h <;> simp [stepA, countGreetings, h]
  | oaResponseDone failed =>
      refine ⟨?_, ?_⟩
      · simpa [stepA, countGreetings_append] using countGreetings_flush s
      · rcases hs with h | h
        · exact Or.inl (by simpa [stepA, flush_greetingSent] using h)
        · exact Or.inr (by simpa [stepA, flush_callReady] using h)
  | oaAudioDelta d i =>
      obtain ⟨h1, h2, h3⟩ := stepA_delta_preserves s d i
      refine ⟨h1, ?_⟩
      rcases hs with h | h
      · exact Or.inl (h2.trans h)
      · exact Or.inr (h3.trans h)
  | oaSpeechStarted => simpa [stepA, countGreetings] using hs
  | oaCommitted i => simpa [stepA, countGreetings] using hs
  | oaTranscriptionCompleted => simpa [stepA, countGreetings] using hs
  | oaErrorEvt => simpa [stepA, countGreetings] using hs
  | twMedia ts p =>
      by_cases hw : s.openAiWsOpen = true <;>
        · rcases hs with h | h <;> simp [stepA, hw, countGreetings, h]
  | twMark =>
      cases hm : s.markQueue with
      | nil => simpa [stepA, hm, countGreetings] using hs
      | cons x rest => simpa [stepA, hm, countGreetings] using hs
  | twStop => simpa [stepA, countGreetings] using hs
  | connClose =>
      by_cases hw : s.openAiWsOpen = true <;> simp [stepA, hw, countGreetings]
  | oaClose => simpa [stepA, countGreetings] using hs

/-- After any state satisfying the issued-or-not-ready invariant, a run
containing no Twilio `start` event emits no greeting. -/
theorem no_greeting_without_start (s : SessionA) (l : List EventA)
    (hs : s.greetingSent = true ∨ s.callReady = false)
    (hl : ∀ e ∈ l, ∀ sid, e ≠ EventA.twStart sid) :
    countGreetings (runA s l).2 = 0 := by
  induction l generalizing s with
  | nil => rfl
  | cons e rest ih =>
      have h1 := stepA_no_greeting s e hs (hl e (List.mem_cons_self e rest))
      have h2 := ih (stepA s e).1 h1.2
        (fun e' he' => hl e' (List.mem_cons_of_mem e he'))
      simp [runA, countGreetings_append, h1.1, h2]

/-- C2: from a fresh session, for either interleaving of the Twilio
`start` event and the OpenAI `session.updated` event, exactly one greeting
`response.create` is ever sent — none before both have arrived, one once
both have, and none during any continuation that contains no further
`start` event. -/
theorem C2_greeting_exactly_once (sid : String) (l : List EventA)
    (hl : ∀ e ∈ l, ∀ sid2, e ≠ EventA.twStart sid2) :
    countGreetings (runA initA ([.twStart sid, .oaSessionUpdated] ++ l)).2 = 1
    ∧ countGreetings (runA initA ([.oaSessionUpdated, .twStart sid] ++ l)).2 = 1
    ∧ countGreetings (runA initA [.twStart sid]).2 = 0
    ∧ countGreetings (runA initA [.oaSessionUpdated]).2 = 0 := by
  refine ⟨?_, ?_, rfl, rfl⟩
  · have h0 : countGreetings (runA initA [.twStart sid, .oaSessionUpdated]).2 = 1 := rfl
    have hinv : (runA initA [.twStart sid, .oaSessionUpdated]).1.greetingSent = true := rfl
    rw [runA_append]
    simp [countGreetings_append, h0,
      no_greeting_without_start _ l (Or.inl hinv) hl]
  · have h0 : countGreetings (runA initA [.oaSessionUpdated, .twStart sid]).2 = 1 := rfl
    have hinv : (runA initA [.oaSessionUpdated, .twStart sid]).1.greetingSent = true := rfl
    rw [runA_append]
    simp [countGreetings_append, h0,
      no_greeting_without_start _ l (Or.inl hinv) hl]

/-- Witness for C2 with the empty continuation. -/
theorem C2_greeting_exactly_once_witness :
    countGreetings (runA initA ([.twStart "S", .oaSessionUpdated] ++ [])).2 = 1
    ∧ countGreetings (runA initA ([.oaSessionUpdated, .twStart "S"] ++ [])).2 = 1
    ∧ countGreetings (runA initA [.twStart "S"]).2 = 0
    ∧ countGreetings (runA initA [.oaSessionUpdated]).2 = 0 :=
  C2_greeting_exactly_once "S" [] (by simp)

/-- `countCreates` distributes over list append. -/
theorem countCreates_append (a b : List Out) :
    countCreates (a ++ b) = countCreates a + countCreates b := by
  induction a with
  | nil => simp [countCreates]
  | cons x rest ih => cases x <;> simp [countCreates, ih] <;> omega

/-- Running the manual-mode handler over an appended event list composes
the two runs. -/
theorem runB_append (s : SessionB) (l1 l2 : List EventB) :
    runB s (l1 ++ l2)
      = ((runB (runB s l1).1 l2).1, (runB s l1).2 ++ (runB (runB s l1).1 l2).2) := by
  induction l1 generalizing s with
  | nil => simp [runB]
  | cons e rest ih => simp [runB, ih]

/-- While a response is in progress, a manual-trigger event sends no
`response.create` and leaves the in-progress flag set. -/
theorem stepB_trigger_inprogress (s : SessionB) (e : EventB)
    (he : isManualTrigger e = true) (h : s.aiResponseInProgress = true) :
    countCreates (stepB s e).2 = 0 ∧ (stepB s e).1.aiResponseInProgress = true := by
  cases e with
  | oaCommitted i => simp [stepB, countCreates, h]
  | commitTimerFire =>
      by_cases hc : s.pendingResponseForItemId = s.lastCommittedItemId <;>
        simp [stepB, hc, tryCreateResponseB, h, countCreates]
  | oaTranscriptionCompleted =>
      simp [stepB, tryCreateResponseB, h, countCreates]
  | oaResponseCreated => simp [isManualTrigger] at he
  | oaResponseDone failed => simp [isManualTrigger] at he
  | oaAudioDelta a i => simp [isManualTrigger] at he
  | oaSpeechStarted => simp [isManualTrigger] at he
  | oaErrorEvt => simp [isManualTrigger] at he
  | twStart sid => simp [isManualTrigger] at he
  | twMedia ts p => simp [isManualTrigger] at he
  | twMark => simp [isManualTrigger] at he
  | twStop => simp [isManualTrigger] at he

/-- While a response is in progress, a run of manual-trigger events sends
no `response.create` at all. -/
theorem manual_triggers_no_create (s : SessionB) (l : List EventB)
    (h : s.aiResponseInProgress = true) (hl : ∀ e ∈ l, isManualTrigger e = true) :
    countCreates (runB s l).2 = 0 := by
  induction l generalizing s with
  | nil => rfl
  | cons e rest ih =>
      have h1 := stepB_trigger_inprogress s e (hl e (List.mem_cons_self e rest)) h
      simp [runB, countCreates_append, h1.1,
        ih (stepB s e).1 h1.2 (fun e' he' => hl e' (List.mem_cons_of_mem e he'))]

/-- Across any run of manual-trigger events, at most one
`response.create` is ever sent. -/
theorem manual_triggers_le_one (s : SessionB) (l : List EventB)
    (hl : ∀ e ∈ l, isManualTrigger e = true) :
    countCreates (runB s l).2 ≤ 1 := by
  induction l generalizing s with
  | nil => simp [runB, countCreates]
  | cons e rest ih =>
      have hrest : ∀ e' ∈ rest, isManualTrigger e' = true :=
        fun e' he' => hl e' (List.mem_cons_of_mem e he')
      have he := hl e (List.mem_cons_self e rest)
      by_cases h : s.aiResponseInProgress = true
      · simp [manual_triggers_no_create s (e :: rest) h hl]
      · cases e with
        | oaCommitted i =>
            simpa [runB, stepB, countCreates_append, countCreates] using ih _ hrest
        | commitTimerFire =>
            by_cases hc : s.pendingResponseForItemId = s.lastCommittedItemId
            · by_cases hlc : strFalsy s.lastCommittedItemId = true
              · simpa [runB, stepB, hc, hlc, tryCreateResponseB, h,
                  countCreates_append, countCreates] using ih _ hrest
              · have h0 : countCreates
                    (runB { s with aiResponseInProgress := true, pendingResponseForItemId := none } rest).2 = 0 :=
                  manual_triggers_no_create _ rest rfl hrest
                simp [runB, stepB, hc, hlc, tryCreateResponseB, h,
                  countCreates_append, countCreates, h0]
            · simpa [runB, stepB, hc, countCreates_append, countCreates] using ih _ hrest
        | oaTranscriptionCompleted =>
            by_cases hlc : strFalsy s.lastCommittedItemId = true
            · simpa [runB, stepB, hlc, tryCreateResponseB, h,
                countCreates_append, countCreates] using ih _ hrest
            · have h0 : countCreates
                  (runB { s with aiResponseInProgress := true, pendingResponseForItemId := none } rest).2 = 0 :=
                manual_triggers_no_create _ rest rfl hrest
              simp [runB, stepB, hlc, tryCreateResponseB, h,
                countCreates_append, countCreates, h0]
        | oaResponseCreated => simp [isManualTrigger] at he
        | oaResponseDone failed => simp [isManualTrigger] at he
        | oaAudioDelta a i => simp [isManualTrigger] at he
        | oaSpeechStarted => simp [isManualTrigger] at he
        | oaErrorEvt => simp [isManualTrigger] at he
        | twStart sid => simp [isManualTrigger] at he
        | twMedia ts p => simp [isManualTrigger] at he
        | twMark => simp [isManualTrigger] at he
        | twStop => simp [isManualTrigger] at he

/-- C3: in manual mode, two committed events in quick succession with no
intervening `response.done` (under either ordering of the two 250 ms
fallback firings) produce exactly one `response.create`; and across any
run of manual-trigger events at most one `response.create` is ever
outstanding. -/
theorem C3_single_outstanding (i1 i2 : String) (h1 : i1 ≠ "") (h2 : i2 ≠ "") :
    countCreates (runB initB
      [.twStart "S", .oaCommitted (some i1), .commitTimerFire,
       .oaCommitted (some i2), .commitTimerFire]).2 = 1
    ∧ countCreates (runB initB
      [.twStart "S", .oaCommitted (some i1), .oaCommitted (some i2),
       .commitTimerFire, .commitTimerFire]).2 = 1
    ∧ ∀ (s : SessionB) (l : List EventB), (∀ e ∈ l, isManualTrigger e = true) →
        countCreates (runB s l).2 ≤ 1 := by
  refine ⟨?_, ?_, fun s l hl => manual_triggers_le_one s l hl⟩
  · simp [runB, stepB, tryCreateResponseB, strFalsy, countCreates, initB, h1, h2]
  · simp [runB, stepB, tryCreateResponseB, strFalsy, countCreates, initB, h1, h2]

/-- Witness for C3 at concrete item ids. -/
theorem C3_single_outstanding_witness :
    countCreates (runB initB
      [.twStart "S", .oaCommitted (some "a"), .commitTimerFire,
       .oaCommitted (some "b"), .commitTimerFire]).2 = 1
    ∧ countCreates (runB initB
      [.twStart "S", .oaCommitted (some "a"), .oaCommitted (some "b"),
       .commitTimerFire, .commitTimerFire]).2 = 1
    ∧ ∀ (s : SessionB) (l : List EventB), (∀ e ∈ l, isManualTrigger e = true) →
        countCreates (runB s l).2 ≤ 1 :=
  C3_single_outstanding "a" "b" (by simp) (by simp)

/-- A non-committed event sends no `response.create` while nothing has
been committed, and leaves `lastCommittedItemId` unset. -/
theorem stepB_no_commit_preserves (s : SessionB) (e : EventB)
    (he : isCommitEvent e = false) (h : s.lastCommittedItemId = none) :
    countCreates (stepB s e).2 = 0 ∧ (stepB s e).1.lastCommittedItemId = none := by
  cases e with
  | oaCommitted i => simp [isCommitEvent] at he
  | commitTimerFire =>
      by_cases hc : s.pendingResponseForItemId = s.lastCommittedItemId
      · simp [stepB, hc, tryCreateResponseB, h, strFalsy, countCreates]
      · rw [h] at hc
        simp [stepB, hc, tryCreateResponseB, h, strFalsy, countCreates]
  | oaTranscriptionCompleted =>
      simp [stepB, tryCreateResponseB, h, strFalsy, countCreates]
  | oaResponseCreated => simp [stepB, countCreates, h]
  | oaResponseDone failed => simp [stepB, countCreates, h]
  | oaAudioDelta a i =>
      by_cases ha : strFalsy a = true
      · simp [stepB, ha, countCreates, h]
      · by_cases hn : numFalsy s.responseStartTimestampTwilio = true <;>
          by_cases hi : strFalsy i = true <;>
            by_cases hsid : strFalsy s.streamSid = true <;>
              simp [stepB, ha, hn, hi, hsid, sendMarkB, countCreates, h]
  | oaSpeechStarted =>
      by_cases hg : s.markQueue.length > 0 ∧ s.responseStartTimestampTwilio.isSome
      · by_cases hitem : strFalsy s.lastAssistantItem = true <;>
          simp [stepB, handleSpeechStartedEventB, hg, hitem, countCreates, h]
      · simp [stepB, handleSpeechStartedEventB, hg, countCreates, h]
  | oaErrorEvt => simp [stepB, countCreates, h]
  | twStart sid => simp [stepB, countCreates]
  | twMedia ts p =>
      by_cases hw : s.openAiWsOpen = true <;> simp [stepB, hw, countCreates, h]
  | twMark =>
      cases hm : s.markQueue with
      | nil => simp [stepB, hm, countCreates, h]
      | cons x rest => simp [stepB, hm, countCreates, h]
  | twStop => simp [stepB, countCreates, h]

/-- A run containing no committed event, started with nothing committed,
never sends `response.create`. -/
theorem no_commit_no_create (s : SessionB) (l : List EventB)
    (h : s.lastCommittedItemId = none) (hl : ∀ e ∈ l, isCommitEvent e = false) :
    countCreates (runB s l).2 = 0 := by
  induction l generalizing s with
  | nil => rfl
  | cons e rest ih =>
      have h1 := stepB_no_commit_preserves s e (hl e (List.mem_cons_self e rest)) h
      simp [runB, countCreates_append, h1.1,
        ih (stepB s e).1 h1.2 (fun e' he' => hl e' (List.mem_cons_of_mem e he'))]

/-- C10: in the manual-mode variant, `tryCreateResponse` is a no-op while
`lastCommittedItemId` is null, and after a stream `start` no
`response.create` is ever sent (by the transcription-complete path or the
commit-timeout fallback) before some committed event arrives. -/
theorem C10_no_response_before_commit :
    (∀ s : SessionB, s.lastCommittedItemId = none → tryCreateResponseB s = (s, []))
    ∧ ∀ (sid : String) (l : List EventB), (∀ e ∈ l, isCommitEvent e = false) →
        countCreates (runB (stepB initB (.twStart sid)).1 l).2 = 0 := by
  constructor
  · intro s h
    by_cases hp : s.aiResponseInProgress = true <;>
      simp [tryCreateResponseB, hp, h, strFalsy]
  · intro sid l hl
    exact no_commit_no_create _ l rfl hl

/-- `mediaPayloads` distributes over list append. -/
theorem mediaPayloads_append (a b : List Out) :
    mediaPayloads (a ++ b) = mediaPayloads a ++ mediaPayloads b := by
  induction a with
  | nil => simp [mediaPayloads]
  | cons x rest ih => cases x <;> simp [mediaPayloads, ih]

/-- One audio delta while the pacer is still buffering below the flush
threshold: the chunk is appended to the pending buffer and nothing is
sent. -/
theorem stepA_delta_buffering (s : SessionA) (c : String) (hc : c ≠ "")
    (hsid : strFalsy s.streamSid = false) (hf : s.hasFlushedInitialAudio = false)
    (hlen : s.pendingAudioChunks.length + 1 < INITIAL_CHUNKS_BEFORE_FLUSH) :
    (stepA s (.oaAudioDelta (some c) none)).2 = []
    ∧ (stepA s (.oaAudioDelta (some c) none)).1.pendingAudioChunks
        = s.pendingAudioChunks ++ [c]
    ∧ (stepA s (.oaAudioDelta (some c) none)).1.hasFlushedInitialAudio = false
    ∧ (stepA s (.oaAudioDelta (some c) none)).1.streamSid = s.streamSid := by
  have hlen' : ¬(INITIAL_CHUNKS_BEFORE_FLUSH ≤ s.pendingAudioChunks.length + 1) := by
    omega
  have hc' : strFalsy (some c) = false := by simp [strFalsy, hc]
  have hnone : strFalsy (none : Option String) = true := rfl
  by_cases hn : numFalsy s.responseStartTimestampTwilio = true <;>
    simp [stepA, hc', hsid, hf, hlen', hn, hnone, ge_iff_le]

/-- A run of fewer-than-threshold audio deltas in buffering mode sends
nothing and accumulates every chunk, in order, in the pending buffer. -/
theorem runA_deltas_buffer (chunks : List String) (s : SessionA)
    (hch : ∀ c ∈ chunks, c ≠ "")
    (hsid : strFalsy s.streamSid = false) (hf : s.hasFlushedInitialAudio = false)
    (hlen : s.pendingAudioChunks.length + chunks.length < INITIAL_CHUNKS_BEFORE_FLUSH) :
    (runA s (chunks.map (fun c => EventA.oaAudioDelta (some c) none))).2 = []
    ∧ (runA s (chunks.map (fun c => EventA.oaAudioDelta (some c) none))).1.pendingAudioChunks
        = s.pendingAudioChunks ++ chunks
    ∧ (runA s (chunks.map (fun c =>
        EventA.oaAudioDelta (some c) none))).1.hasFlushedInitialAudio = false
    ∧ (runA s (chunks.map (fun c => EventA.oaAudioDelta (some c) none))).1.streamSid
        = s.streamSid := by
  induction chunks generalizing s with
  | nil => simp [runA, hf]
  | cons c rest ih =>
      obtain ⟨ho, hp, hfl, hst⟩ :=
        stepA_delta_buffering s c (hch c (List.mem_cons_self c rest)) hsid hf
          (by simp at hlen; omega)
      obtain ⟨iho, ihp, ihf, ihs⟩ :=
        ih (stepA s (.oaAudioDelta (some c) none)).1
          (fun c' hc' => hch c' (List.mem_cons_of_mem c hc'))
          (hst.symm ▸ hsid) hfl
          (by rw [hp]; simp at hlen ⊢; omega)
      refine ⟨?_, ?_, ?_, ?_⟩
      · simp [runA, ho, iho]
      · simp [runA, ihp, hp]
      · simp [runA, ihf]
      · simp [runA, ihs, hst]

/-- Processing `response.done` delivers exactly the buffered chunks to the
Media Channel and empties the buffer (given the stream id is set). -/
theorem stepA_done_flushes (s : SessionA) (failed : Bool)
    (h : strFalsy s.streamSid = false) :
    mediaPayloads (stepA s (.oaResponseDone failed)).2 = s.pendingAudioChunks
    ∧ (stepA s (.oaResponseDone failed)).1.pendingAudioChunks = [] := by
  by_cases hne : s.pendingAudioChunks = []
  · simp [stepA, flushPendingAudioA, hne, mediaPayloads]
  · simp [stepA, flushPendingAudioA_spec s h hne, mediaPayloads_interleaveMarks]

/-- C4: starting a new response (`response.created`) and then receiving
fewer than `INITIAL_CHUNKS_BEFORE_FLUSH` audio chunks before
`response.done`: every chunk accepted into the pending buffer is delivered
to the Media Channel when `response.done` is processed, in order, and the
buffer ends empty — the initial-buffering logic drops nothing. -/
theorem C4_pacer_flush_completeness (s : SessionA) (chunks : List String)
    (hsid : strFalsy s.streamSid = false)
    (hlen : chunks.length < INITIAL_CHUNKS_BEFORE_FLUSH)
    (hch : ∀ c ∈ chunks, c ≠ "") :
    mediaPayloads (runA s (EventA.oaResponseCreated ::
      (chunks.map (fun c => EventA.oaAudioDelta (some c) none)
        ++ [EventA.oaResponseDone false]))).2 = chunks
    ∧ (runA s (EventA.oaResponseCreated ::
      (chunks.map (fun c => EventA.oaAudioDelta (some c) none)
        ++ [EventA.oaResponseDone false]))).1.pendingAudioChunks = [] := by
  have hs0p : (stepA s EventA.oaResponseCreated).1.pendingAudioChunks = [] := rfl
  have hs0f : (stepA s EventA.oaResponseCreated).1.hasFlushedInitialAudio = false := rfl
  have hs0s : (stepA s EventA.oaResponseCreated).1.streamSid = s.streamSid := rfl
  have hs0o : (stepA s EventA.oaResponseCreated).2 = [] := rfl
  obtain ⟨ho, hp, hfl, hst⟩ :=
    runA_deltas_buffer chunks (stepA s EventA.oaResponseCreated).1 hch
      (by rw [hs0s]; exact hsid) hs0f (by rw [hs0p]; simpa using hlen)
  have hp' : (runA (stepA s EventA.oaResponseCreated).1
      (chunks.map (fun c => EventA.oaAudioDelta (some c) none))).1.pendingAudioChunks
      = chunks := by rw [hp, hs0p]; simp
  have hst' : strFalsy (runA (stepA s EventA.oaResponseCreated).1
      (chunks.map (fun c => EventA.oaAudioDelta (some c) none))).1.streamSid = false := by
    rw [hst, hs0s]; exact hsid
  obtain ⟨hd1, hd2⟩ := stepA_done_flushes
    (runA (stepA s EventA.oaResponseCreated).1
      (chunks.map (fun c => EventA.oaAudioDelta (some c) none))).1 false hst'
  rw [hp'] at hd1
  refine ⟨?_, ?_⟩
  · simp only [runA, runA_append, hs0o, ho, List.nil_append, List.append_nil]
    exact hd1
  · simp only [runA, runA_append]
    exact hd2

/-- Witness for C4: three chunks (fewer than the threshold of six) are all
delivered on `response.done`. -/
theorem C4_pacer_flush_completeness_witness :
    mediaPayloads (runA { initA with streamSid := some "S" }
      (EventA.oaResponseCreated ::
        (["c1", "c2", "c3"].map (fun c => EventA.oaAudioDelta (some c) none)
          ++ [EventA.oaResponseDone false]))).2 = ["c1", "c2", "c3"]
    ∧ (runA { initA with streamSid := some "S" }
      (EventA.oaResponseCreated ::
        (["c1", "c2", "c3"].map (fun c => EventA.oaAudioDelta (some c) none)
          ++ [EventA.oaResponseDone false]))).1.pendingAudioChunks = [] :=
  C4_pacer_flush_completeness { initA with streamSid := some "S" }
    ["c1", "c2", "c3"] rfl (by decide) (by decide)

/-- Witness for C10: a commit-timeout firing, a transcription completion
and a barge-in before any commit produce no `response.create`. -/
theorem C10_no_response_before_commit_witness :
    tryCreateResponseB initB = (initB, [])
    ∧ countCreates (runB (stepB initB (.twStart "S")).1
        [.commitTimerFire, .oaTranscriptionCompleted, .oaSpeechStarted]).2 = 0 :=
  ⟨C10_no_response_before_commit.1 initB rfl,
   C10_no_response_before_commit.2 "S"
     [.commitTimerFire, .oaTranscriptionCompleted, .oaSpeechStarted] (by decide)⟩

end SpeechBridge
